import Mathlib

/-!
Verification of the transport-header abstraction layer of the rustrelay packet relay
(`src/rustrelay/src/relay/transport_header.rs`).

The file embeds the Rust source shallowly: byte buffers are `List Nat` (each element a `u8`
value, reduced mod 256 where it matters), `u16` fields are `Nat` reduced mod 2^16 where
overflow matters, mutation is explicit state passing, and a codec-level panic on a violated
precondition is modelled as `Except.error`.

The TCP, UDP and IPv4 codecs (`tcp_header.rs`, `udp_header.rs`, `ipv4_header.rs`) are external
collaborators of this layer: they are part of the repository but not of the verified source
tree, so they are modelled from the specification's description of their contract; each such
definition carries a doc comment starting with "Modelled from the spec".
-/

namespace RustRelay

/-- Modelled from the spec: the protocol discriminator (external collaborator,
`ipv4_header::Protocol`): identifies whether a raw IP payload is TCP, UDP, or neither
(an "other" sentinel carrying the raw protocol number). -/
inductive Protocol
  | TCP
  | UDP
  | OTHER (number : Nat)
deriving DecidableEq

/-- Modelled from the spec: big-endian 16-bit read at byte offset `i` of a byte buffer
(bytes are `u8` values, reduced mod 256). -/
def read16 (raw : List Nat) (i : Nat) : Nat :=
  raw.getD i 0 % 256 * 256 + raw.getD (i + 1) 0 % 256

/-- Modelled from the spec: big-endian 16-bit write of `v` at byte offset `i` of a byte
buffer. -/
def write16 (raw : List Nat) (i v : Nat) : List Nat :=
  (raw.set i (v / 256 % 256)).set (i + 1) (v % 256)

/-- Modelled from the spec: the TCP codec's owned field snapshot (`TCPHeaderData`): the 16-bit
source and destination ports and the data-offset field from which the header length derives. -/
structure TCPHeaderData where
  sourcePort : Nat
  destinationPort : Nat
  dataOffset : Nat
deriving DecidableEq

/-- Modelled from the spec: the UDP codec's owned field snapshot (`UDPHeaderData`): the 16-bit
ports and the UDP header's stored total-length field. -/
structure UDPHeaderData where
  sourcePort : Nat
  destinationPort : Nat
  totalLength : Nat
deriving DecidableEq

/-- The `UDP_HEADER_LENGTH` constant imported by the source from the UDP codec: the fixed
UDP header size in bytes. -/
def UDP_HEADER_LENGTH : Nat := 8

/-- Modelled from the spec: `TCPHeaderData::parse` (external TCP codec). The buffer must be at
least the 20-byte minimum TCP header; the violated precondition is caught by an explicit bounds
check before any field is read and aborts processing of that packet (`Except.error`). Ports are
big-endian at byte offsets 0 and 2; the data offset is the high nibble of byte 12. -/
def TCPHeaderData.parse (raw : List Nat) : Except String TCPHeaderData :=
  if raw.length < 20 then
    Except.error "TCP header shorter than the 20-byte minimum"
  else
    Except.ok ⟨read16 raw 0, read16 raw 2, raw.getD 12 0 % 256 / 16⟩

/-- Modelled from the spec: `UDPHeaderData::parse` (external UDP codec). The buffer must be at
least the fixed 8-byte UDP header; undersized buffers abort via the explicit bounds check.
Ports are big-endian at offsets 0 and 2, the stored length field at offset 4. -/
def UDPHeaderData.parse (raw : List Nat) : Except String UDPHeaderData :=
  if raw.length < 8 then
    Except.error "UDP header shorter than the 8-byte fixed size"
  else
    Except.ok ⟨read16 raw 0, read16 raw 2, read16 raw 4⟩

/-- Modelled from the spec: the TCP codec's `source_port` accessor. -/
def TCPHeaderData.source_port (d : TCPHeaderData) : Nat := d.sourcePort

/-- Modelled from the spec: the TCP codec's `destination_port` accessor. -/
def TCPHeaderData.destination_port (d : TCPHeaderData) : Nat := d.destinationPort

/-- Modelled from the spec: the TCP codec's `header_length`, derived from the data-offset
field in 4-byte steps. -/
def TCPHeaderData.header_length (d : TCPHeaderData) : Nat := d.dataOffset * 4

/-- Modelled from the spec: the UDP codec's `source_port` accessor. -/
def UDPHeaderData.source_port (d : UDPHeaderData) : Nat := d.sourcePort

/-- Modelled from the spec: the UDP codec's `destination_port` accessor. -/
def UDPHeaderData.destination_port (d : UDPHeaderData) : Nat := d.destinationPort

/-- `TransportHeaderData` (transport_header.rs, lines 15-19): the protocol-tagged owned
snapshot, with exactly the two variants TCP and UDP. -/
inductive TransportHeaderData
  | TCP (d : TCPHeaderData)
  | UDP (d : UDPHeaderData)
deriving DecidableEq

/-- `TransportHeaderData::parse` (transport_header.rs, lines 23-29): dispatch on the protocol
tag; UDP and TCP wrap the matching codec parser's result in `Some`, every other protocol yields
`None` (a normal return, not an error). A codec-level abort propagates. -/
def TransportHeaderData.parse (protocol : Protocol) (raw : List Nat) :
    Except String (Option TransportHeaderData) :=
  match protocol with
  | Protocol.UDP => (UDPHeaderData.parse raw).map fun d => some (TransportHeaderData.UDP d)
  | Protocol.TCP => (TCPHeaderData.parse raw).map fun d => some (TransportHeaderData.TCP d)
  | _ => Except.ok none

/-- `TransportHeaderData::source_port` (lines 42-47). -/
def TransportHeaderData.source_port : TransportHeaderData → Nat
  | TransportHeaderData.TCP d => d.source_port
  | TransportHeaderData.UDP d => d.source_port

/-- `TransportHeaderData::destination_port` (lines 50-55). -/
def TransportHeaderData.destination_port : TransportHeaderData → Nat
  | TransportHeaderData.TCP d => d.destination_port
  | TransportHeaderData.UDP d => d.destination_port

/-- `TransportHeaderData::header_length` (lines 58-63): the TCP codec's value for TCP, the
fixed `UDP_HEADER_LENGTH` for UDP. -/
def TransportHeaderData.header_length : TransportHeaderData → Nat
  | TransportHeaderData.TCP d => d.header_length
  | TransportHeaderData.UDP _ => UDP_HEADER_LENGTH

/-- Modelled from the spec: the TCP codec's read-only view: the bound byte region together
with the owned Data it was derived from. -/
structure TCPHeader where
  raw : List Nat
  data : TCPHeaderData
deriving DecidableEq

/-- Modelled from the spec: the UDP codec's read-only view. -/
structure UDPHeader where
  raw : List Nat
  data : UDPHeaderData
deriving DecidableEq

/-- Modelled from the spec: the TCP codec's mutable view; mutation is explicit state passing. -/
structure TCPHeaderMut where
  raw : List Nat
  data : TCPHeaderData
deriving DecidableEq

/-- Modelled from the spec: the UDP codec's mutable view. -/
structure UDPHeaderMut where
  raw : List Nat
  data : UDPHeaderData
deriving DecidableEq

/-- Modelled from the spec: the TCP codec's `bind`: a zero-copy read view over the buffer. -/
def TCPHeaderData.bind (d : TCPHeaderData) (raw : List Nat) : TCPHeader := ⟨raw, d⟩

/-- Modelled from the spec: the TCP codec's `bind_mut`. -/
def TCPHeaderData.bind_mut (d : TCPHeaderData) (raw : List Nat) : TCPHeaderMut := ⟨raw, d⟩

/-- Modelled from the spec: the UDP codec's `bind`. -/
def UDPHeaderData.bind (d : UDPHeaderData) (raw : List Nat) : UDPHeader := ⟨raw, d⟩

/-- Modelled from the spec: the UDP codec's `bind_mut`. -/
def UDPHeaderData.bind_mut (d : UDPHeaderData) (raw : List Nat) : UDPHeaderMut := ⟨raw, d⟩

/-- `TransportHeader` (lines 5-8): protocol-tagged union of the codec read-only views. -/
inductive TransportHeader
  | TCP (h : TCPHeader)
  | UDP (h : UDPHeader)
deriving DecidableEq

/-- `TransportHeaderMut` (lines 10-13): protocol-tagged union of the codec mutable views. -/
inductive TransportHeaderMut
  | TCP (h : TCPHeaderMut)
  | UDP (h : UDPHeaderMut)
deriving DecidableEq

/-- `TransportHeader::new` (lines 66-73): bind the matching codec view. -/
def TransportHeader.new (raw : List Nat) (data : TransportHeaderData) : TransportHeader :=
  match data with
  | TransportHeaderData.TCP t => TransportHeader.TCP (t.bind raw)
  | TransportHeaderData.UDP u => TransportHeader.UDP (u.bind raw)

/-- `TransportHeaderMut::new` (lines 75-82). -/
def TransportHeaderMut.new (raw : List Nat) (data : TransportHeaderData) : TransportHeaderMut :=
  match data with
  | TransportHeaderData.TCP t => TransportHeaderMut.TCP (t.bind_mut raw)
  | TransportHeaderData.UDP u => TransportHeaderMut.UDP (u.bind_mut raw)

/-- `TransportHeaderData::bind` (lines 32-34). -/
def TransportHeaderData.bind (d : TransportHeaderData) (raw : List Nat) : TransportHeader :=
  TransportHeader.new raw d

/-- `TransportHeaderData::bind_mut` (lines 37-39). -/
def TransportHeaderData.bind_mut (d : TransportHeaderData) (raw : List Nat) : TransportHeaderMut :=
  TransportHeaderMut.new raw d

/-- `raw` accessor from `transport_header_common!` instantiated at `TransportHeader`. -/
def TransportHeader.raw : TransportHeader → List Nat
  | TransportHeader.TCP h => h.raw
  | TransportHeader.UDP h => h.raw

/-- `data_clone` from `transport_header_common!` at `TransportHeader` (lines 98-104): clones
the codec view's current Data and re-tags it. -/
def TransportHeader.data_clone : TransportHeader → TransportHeaderData
  | TransportHeader.TCP h => TransportHeaderData.TCP h.data
  | TransportHeader.UDP h => TransportHeaderData.UDP h.data

/-- `source_port` from `transport_header_common!` at `TransportHeader` (lines 106-112): reads
through the codec view's Data. -/
def TransportHeader.source_port : TransportHeader → Nat
  | TransportHeader.TCP h => h.data.source_port
  | TransportHeader.UDP h => h.data.source_port

/-- `destination_port` from `transport_header_common!` at `TransportHeader` (lines 114-120). -/
def TransportHeader.destination_port : TransportHeader → Nat
  | TransportHeader.TCP h => h.data.destination_port
  | TransportHeader.UDP h => h.data.destination_port

/-- `header_length` from `transport_header_common!` at `TransportHeader` (lines 122-128). -/
def TransportHeader.header_length : TransportHeader → Nat
  | TransportHeader.TCP h => h.data.header_length
  | TransportHeader.UDP _ => UDP_HEADER_LENGTH

/-- `raw` from `transport_header_common!` instantiated at `TransportHeaderMut`. -/
def TransportHeaderMut.raw : TransportHeaderMut → List Nat
  | TransportHeaderMut.TCP h => h.raw
  | TransportHeaderMut.UDP h => h.raw

/-- `data_clone` from `transport_header_common!` at `TransportHeaderMut`. -/
def TransportHeaderMut.data_clone : TransportHeaderMut → TransportHeaderData
  | TransportHeaderMut.TCP h => TransportHeaderData.TCP h.data
  | TransportHeaderMut.UDP h => TransportHeaderData.UDP h.data

/-- `source_port` from `transport_header_common!` at `TransportHeaderMut`. -/
def TransportHeaderMut.source_port : TransportHeaderMut → Nat
  | TransportHeaderMut.TCP h => h.data.source_port
  | TransportHeaderMut.UDP h => h.data.source_port

/-- `destination_port` from `transport_header_common!` at `TransportHeaderMut`. -/
def TransportHeaderMut.destination_port : TransportHeaderMut → Nat
  | TransportHeaderMut.TCP h => h.data.destination_port
  | TransportHeaderMut.UDP h => h.data.destination_port

/-- `header_length` from `transport_header_common!` at `TransportHeaderMut`. -/
def TransportHeaderMut.header_length : TransportHeaderMut → Nat
  | TransportHeaderMut.TCP h => h.data.header_length
  | TransportHeaderMut.UDP _ => UDP_HEADER_LENGTH

/-- Modelled from the spec: exchange of the two 16-bit port fields held in bytes 0..4 of a
bound transport header buffer (bytes 0..2 swap with bytes 2..4). -/
def swapPortBytes (raw : List Nat) : List Nat :=
  (((raw.set 0 (raw.getD 2 0)).set 1 (raw.getD 3 0)).set 2 (raw.getD 0 0)).set 3 (raw.getD 1 0)

/-- Modelled from the spec: the TCP codec's `swap_source_and_destination`: exchanges the port
fields in place, updating the buffer and the backing Data together. -/
def TCPHeaderMut.swap_source_and_destination (h : TCPHeaderMut) : TCPHeaderMut :=
  ⟨swapPortBytes h.raw, ⟨h.data.destinationPort, h.data.sourcePort, h.data.dataOffset⟩⟩

/-- Modelled from the spec: the UDP codec's `swap_source_and_destination`. -/
def UDPHeaderMut.swap_source_and_destination (h : UDPHeaderMut) : UDPHeaderMut :=
  ⟨swapPortBytes h.raw, ⟨h.data.destinationPort, h.data.sourcePort, h.data.totalLength⟩⟩

/-- `TransportHeaderMut::swap_source_and_destination` (lines 148-153): dispatch to the codec. -/
def TransportHeaderMut.swap_source_and_destination : TransportHeaderMut → TransportHeaderMut
  | TransportHeaderMut.TCP h => TransportHeaderMut.TCP h.swap_source_and_destination
  | TransportHeaderMut.UDP h => TransportHeaderMut.UDP h.swap_source_and_destination

/-- Modelled from the spec: the UDP codec's `set_payload_length`: stores `n + 8` (as a 16-bit
value) in the UDP length field, in the buffer (offset 4) and in the backing Data together. -/
def UDPHeaderMut.set_payload_length (h : UDPHeaderMut) (payloadLength : Nat) : UDPHeaderMut :=
  ⟨write16 h.raw 4 ((payloadLength + 8) % 65536),
   ⟨h.data.sourcePort, h.data.destinationPort, (payloadLength + 8) % 65536⟩⟩

/-- `TransportHeaderMut::set_payload_length` (lines 156-161): delegates for UDP; TCP does not
store its payload length, so every other case is a no-op. -/
def TransportHeaderMut.set_payload_length (h : TransportHeaderMut) (payloadLength : Nat) :
    TransportHeaderMut :=
  match h with
  | TransportHeaderMut.UDP u => TransportHeaderMut.UDP (u.set_payload_length payloadLength)
  | _ => h

/-- Modelled from the spec: the IPv4 collaborator's header data, exposing at least the source
address, destination address, protocol number and total/effective length. -/
structure IPv4HeaderData where
  source : Nat
  destination : Nat
  protocolNumber : Nat
  totalLength : Nat
deriving DecidableEq

/-- Modelled from the spec: end-around carry folding of a ones-complement sum to 16 bits. -/
def foldCarry (n : Nat) : Nat :=
  if n < 65536 then n
  else foldCarry (n % 65536 + n / 65536)
termination_by n
decreasing_by omega

/-- Modelled from the spec: sum of the big-endian 16-bit words of a byte list (an odd trailing
byte is padded with zero). -/
def sumWords : List Nat → Nat
  | [] => 0
  | [a] => a % 256 * 256
  | a :: b :: rest => a % 256 * 256 + b % 256 + sumWords rest

/-- Modelled from the spec: the transport pseudo-header sum: source and destination addresses,
protocol number and effective transport length taken from the IPv4 header data. -/
def pseudoHeaderSum (ip : IPv4HeaderData) (transportLength : Nat) : Nat :=
  ip.source / 65536 % 65536 + ip.source % 65536 + ip.destination / 65536 % 65536 +
    ip.destination % 65536 + ip.protocolNumber % 65536 + transportLength % 65536

/-- Modelled from the spec: the internet checksum of the pseudo-header, the header bytes (with
the checksum field at `checksumOffset` zeroed) and the payload bytes. -/
def transportChecksum (ip : IPv4HeaderData) (header payload : List Nat)
    (checksumOffset : Nat) : Nat :=
  65535 - foldCarry (pseudoHeaderSum ip (header.length + payload.length) +
    sumWords (write16 header checksumOffset 0) + sumWords payload)

/-- Modelled from the spec: the TCP codec's `update_checksum`: recomputes the checksum over
pseudo-header, header and payload and writes it at the TCP checksum offset (byte 16). -/
def TCPHeaderMut.update_checksum (h : TCPHeaderMut) (ip : IPv4HeaderData)
    (payload : List Nat) : TCPHeaderMut :=
  ⟨write16 h.raw 16 (transportChecksum ip h.raw payload 16), h.data⟩

/-- Modelled from the spec: the UDP codec's `update_checksum` (checksum at byte offset 6). -/
def UDPHeaderMut.update_checksum (h : UDPHeaderMut) (ip : IPv4HeaderData)
    (payload : List Nat) : UDPHeaderMut :=
  ⟨write16 h.raw 6 (transportChecksum ip h.raw payload 6), h.data⟩

/-- `TransportHeaderMut::update_checksum` (lines 164-169): dispatch to the codec. -/
def TransportHeaderMut.update_checksum (h : TransportHeaderMut) (ip : IPv4HeaderData)
    (payload : List Nat) : TransportHeaderMut :=
  match h with
  | TransportHeaderMut.TCP t => TransportHeaderMut.TCP (t.update_checksum ip payload)
  | TransportHeaderMut.UDP u => TransportHeaderMut.UDP (u.update_checksum ip payload)

/-- The protocol tag observed on a value of one of the three tagged unions. -/
inductive TransportTag
  | tcp
  | udp
deriving DecidableEq

/-- Tag of an owned snapshot. -/
def TransportHeaderData.tag : TransportHeaderData → TransportTag
  | TransportHeaderData.TCP _ => TransportTag.tcp
  | TransportHeaderData.UDP _ => TransportTag.udp

/-- Tag of a read-only view. -/
def TransportHeader.tag : TransportHeader → TransportTag
  | TransportHeader.TCP _ => TransportTag.tcp
  | TransportHeader.UDP _ => TransportTag.udp

/-- Tag of a mutable view. -/
def TransportHeaderMut.tag : TransportHeaderMut → TransportTag
  | TransportHeaderMut.TCP _ => TransportTag.tcp
  | TransportHeaderMut.UDP _ => TransportTag.udp

/-! ## Theorems -/

/-- Claim C1: `TransportHeaderData::parse` returns `Some` of a TCP-tagged Data (exactly the TCP
codec parser's result) when the protocol is TCP, `Some` of a UDP-tagged Data (the UDP codec
parser's result) when the protocol is UDP, and for every other protocol value the not-handled
signal `none` — a normal `ok` return, not an error. The TCP and UDP cases are stated under the
codec's documented minimum-length precondition, under which the codec parser succeeds. -/
theorem parse_dispatches_on_protocol :
    (∀ raw : List Nat, 20 ≤ raw.length →
      ∃ t, TCPHeaderData.parse raw = Except.ok t ∧
        TransportHeaderData.parse Protocol.TCP raw =
          Except.ok (some (TransportHeaderData.TCP t))) ∧
    (∀ raw : List Nat, 8 ≤ raw.length →
      ∃ u, UDPHeaderData.parse raw = Except.ok u ∧
        TransportHeaderData.parse Protocol.UDP raw =
          Except.ok (some (TransportHeaderData.UDP u))) ∧
    (∀ (code : Nat) (raw : List Nat),
      TransportHeaderData.parse (Protocol.OTHER code) raw = Except.ok none) := by
  refine ⟨?_, ?_, ?_⟩
  · intro raw h
    have h20 : ¬ raw.length < 20 := by omega
    refine ⟨⟨read16 raw 0, read16 raw 2, raw.getD 12 0 % 256 / 16⟩, ?_, ?_⟩ <;>
      simp [TCPHeaderData.parse, TransportHeaderData.parse, h20, Except.map]
  · intro raw h
    have h8 : ¬ raw.length < 8 := by omega
    refine ⟨⟨read16 raw 0, read16 raw 2, read16 raw 4⟩, ?_, ?_⟩ <;>
      simp [UDPHeaderData.parse, TransportHeaderData.parse, h8, Except.map]
  · intro code raw
    rfl

/-- Witness for C1 at concrete inputs: a 20-byte TCP buffer, an 8-byte UDP buffer, and the
"other" protocol number 47. -/
theorem parse_dispatches_on_protocol_witness :
    (∃ t, TCPHeaderData.parse (List.replicate 20 0) = Except.ok t ∧
      TransportHeaderData.parse Protocol.TCP (List.replicate 20 0) =
        Except.ok (some (TransportHeaderData.TCP t))) ∧
    (∃ u, UDPHeaderData.parse (List.replicate 8 0) = Except.ok u ∧
      TransportHeaderData.parse Protocol.UDP (List.replicate 8 0) =
        Except.ok (some (TransportHeaderData.UDP u))) ∧
    TransportHeaderData.parse (Protocol.OTHER 47) [1, 2, 3] = Except.ok none :=
  ⟨parse_dispatches_on_protocol.1 (List.replicate 20 0) (by simp),
   parse_dispatches_on_protocol.2.1 (List.replicate 8 0) (by simp),
   parse_dispatches_on_protocol.2.2 47 [1, 2, 3]⟩

/-- Claim C8: parsing a TCP-tagged byte slice shorter than the 20-byte minimum TCP header does
not silently succeed: the codec's explicit bounds check catches the undersized buffer before
any header field is read and aborts processing of that single packet. -/
theorem parse_tcp_undersized_aborts (raw : List Nat) (h : raw.length < 20) :
    TransportHeaderData.parse Protocol.TCP raw =
      Except.error "TCP header shorter than the 20-byte minimum" := by
  simp [TransportHeaderData.parse, TCPHeaderData.parse, h, Except.map]

/-- Witness for C8: 4 bytes of garbage tagged as TCP abort with the bounds-check error. -/
theorem parse_tcp_undersized_aborts_witness :
    ([9, 9, 9, 9] : List Nat).length < 20 ∧
    TransportHeaderData.parse Protocol.TCP [9, 9, 9, 9] =
      Except.error "TCP header shorter than the 20-byte minimum" :=
  ⟨by decide, parse_tcp_undersized_aborts [9, 9, 9, 9] (by decide)⟩

/-- Claim C10 counterexample: whether `parse` returns `Some` is not independent of the raw
bytes: with protocol TCP, an empty slice aborts in the codec's bounds check (no `Some` result)
while a 20-byte slice yields `Some`, refuting the claim at these two concrete inputs. -/
theorem parse_someness_depends_on_slice_cex :
    (TransportHeaderData.parse Protocol.TCP []).toOption.join.isSome = false ∧
    (TransportHeaderData.parse Protocol.TCP (List.replicate 20 0)).toOption.join.isSome
      = true := by
  constructor
  · rfl
  · rfl

/-- Claim C10 (amended): for byte slices meeting the codec's own minimum header length
(TCP ≥ 20 bytes, UDP ≥ 8 bytes), whether `parse` returns `Some` depends only on the protocol
tag and never on the bytes' content: any two sufficiently long slices agree (for the other
protocols, any two slices whatsoever agree), TCP and UDP always yield `Some`, and every other
protocol yields `None`; TCP/UDP slices shorter than the codec minimum instead abort in the
codec's bounds check rather than returning `Some`. -/
theorem parse_someness_protocol_only (raw1 raw2 : List Nat) :
    ((20 ≤ raw1.length → 20 ≤ raw2.length →
        (TransportHeaderData.parse Protocol.TCP raw1).toOption.join.isSome =
          (TransportHeaderData.parse Protocol.TCP raw2).toOption.join.isSome) ∧
      (8 ≤ raw1.length → 8 ≤ raw2.length →
        (TransportHeaderData.parse Protocol.UDP raw1).toOption.join.isSome =
          (TransportHeaderData.parse Protocol.UDP raw2).toOption.join.isSome) ∧
      (∀ code,
        (TransportHeaderData.parse (Protocol.OTHER code) raw1).toOption.join.isSome =
          (TransportHeaderData.parse (Protocol.OTHER code) raw2).toOption.join.isSome)) ∧
    (20 ≤ raw1.length →
      (TransportHeaderData.parse Protocol.TCP raw1).toOption.join.isSome = true) ∧
    (8 ≤ raw1.length →
      (TransportHeaderData.parse Protocol.UDP raw1).toOption.join.isSome = true) ∧
    (∀ code,
      (TransportHeaderData.parse (Protocol.OTHER code) raw1).toOption.join.isSome = false) ∧
    (raw1.length < 20 →
      TransportHeaderData.parse Protocol.TCP raw1 =
        Except.error "TCP header shorter than the 20-byte minimum") ∧
    (raw1.length < 8 →
      TransportHeaderData.parse Protocol.UDP raw1 =
        Except.error "UDP header shorter than the 8-byte fixed size") := by
  refine ⟨⟨?_, ?_, fun code => rfl⟩, ?_, ?_, fun code => rfl, ?_, ?_⟩
  · intro h1 h2
    have t1 : ¬ raw1.length < 20 := by omega
    have t2 : ¬ raw2.length < 20 := by omega
    simp [TransportHeaderData.parse, TCPHeaderData.parse, t1, t2, Except.toOption,
      Option.join, Except.map]
  · intro h1 h2
    have u1 : ¬ raw1.length < 8 := by omega
    have u2 : ¬ raw2.length < 8 := by omega
    simp [TransportHeaderData.parse, UDPHeaderData.parse, u1, u2, Except.toOption,
      Option.join, Except.map]
  · intro h1
    have t1 : ¬ raw1.length < 20 := by omega
    simp [TransportHeaderData.parse, TCPHeaderData.parse, t1, Except.toOption, Option.join,
      Except.map]
  · intro h1
    have u1 : ¬ raw1.length < 8 := by omega
    simp [TransportHeaderData.parse, UDPHeaderData.parse, u1, Except.toOption, Option.join,
      Except.map]
  · intro h1
    simp [TransportHeaderData.parse, TCPHeaderData.parse, h1, Except.map]
  · intro h1
    simp [TransportHeaderData.parse, UDPHeaderData.parse, h1, Except.map]

/-- Witness for the amended C10: the UDP clauses at two 8-byte slices of different content
(a length the TCP minimum would exclude), the TCP clauses at two 20-byte slices of different
content, the abort clauses at an 8-byte TCP slice and a 3-byte UDP slice, and the "other"
protocol number 47. -/
theorem parse_someness_protocol_only_witness :
    ((TransportHeaderData.parse Protocol.UDP (List.replicate 8 0)).toOption.join.isSome =
      (TransportHeaderData.parse Protocol.UDP (List.replicate 8 255)).toOption.join.isSome) ∧
    (TransportHeaderData.parse Protocol.UDP (List.replicate 8 0)).toOption.join.isSome
      = true ∧
    ((TransportHeaderData.parse Protocol.TCP (List.replicate 20 0)).toOption.join.isSome =
      (TransportHeaderData.parse Protocol.TCP (List.replicate 20 255)).toOption.join.isSome) ∧
    (TransportHeaderData.parse Protocol.TCP (List.replicate 20 0)).toOption.join.isSome
      = true ∧
    TransportHeaderData.parse Protocol.TCP (List.replicate 8 0) =
      Except.error "TCP header shorter than the 20-byte minimum" ∧
    TransportHeaderData.parse Protocol.UDP [1, 2, 3] =
      Except.error "UDP header shorter than the 8-byte fixed size" ∧
    (TransportHeaderData.parse (Protocol.OTHER 47) (List.replicate 8 0)).toOption.join.isSome
      = false :=
  ⟨(parse_someness_protocol_only (List.replicate 8 0) (List.replicate 8 255)).1.2.1
      (by simp) (by simp),
   (parse_someness_protocol_only (List.replicate 8 0) (List.replicate 8 255)).2.2.1 (by simp),
   (parse_someness_protocol_only (List.replicate 20 0) (List.replicate 20 255)).1.1
      (by simp) (by simp),
   (parse_someness_protocol_only (List.replicate 20 0) (List.replicate 20 255)).2.1 (by simp),
   (parse_someness_protocol_only (List.replicate 8 0) (List.replicate 8 0)).2.2.2.2.1
      (by simp),
   (parse_someness_protocol_only [1, 2, 3] [1, 2, 3]).2.2.2.2.2 (by simp),
   (parse_someness_protocol_only (List.replicate 8 0) (List.replicate 8 0)).2.2.2.1 47⟩

/-- Claim C2: for every owned snapshot and every bound view (read-only or mutable),
`header_length` is exactly 8 when the value is UDP-tagged, and when TCP-tagged is the TCP
codec's value derived from the data-offset field (data-offset × 4), which lies in [20, 60]
whenever the data offset is in the valid range [5, 15]. -/
theorem header_length_by_protocol :
    (∀ (u : UDPHeaderData) (raw : List Nat),
      (TransportHeaderData.UDP u).header_length = 8 ∧
      ((TransportHeaderData.UDP u).bind raw).header_length = 8 ∧
      ((TransportHeaderData.UDP u).bind_mut raw).header_length = 8) ∧
    (∀ (t : TCPHeaderData) (raw : List Nat),
      (TransportHeaderData.TCP t).header_length = t.dataOffset * 4 ∧
      ((TransportHeaderData.TCP t).bind raw).header_length = t.dataOffset * 4 ∧
      ((TransportHeaderData.TCP t).bind_mut raw).header_length = t.dataOffset * 4 ∧
      (5 ≤ t.dataOffset → t.dataOffset ≤ 15 →
        20 ≤ (TransportHeaderData.TCP t).header_length ∧
          (TransportHeaderData.TCP t).header_length ≤ 60)) := by
  constructor
  · intro u raw
    refine ⟨rfl, rfl, rfl⟩
  · intro t raw
    refine ⟨rfl, rfl, rfl, fun h5 h15 => ?_⟩
    simp only [TransportHeaderData.header_length, TCPHeaderData.header_length]
    omega

/-- Witness for C2: a TCP header with data offset 8 has header length 32, inside [20, 60];
a UDP header always has header length 8. -/
theorem header_length_by_protocol_witness :
    (TransportHeaderData.TCP ⟨5000, 80, 8⟩).header_length = 8 * 4 ∧
    (20 ≤ (TransportHeaderData.TCP ⟨5000, 80, 8⟩).header_length ∧
      (TransportHeaderData.TCP ⟨5000, 80, 8⟩).header_length ≤ 60) ∧
    (TransportHeaderData.UDP ⟨5000, 80, 28⟩).header_length = 8 :=
  ⟨(header_length_by_protocol.2 ⟨5000, 80, 8⟩ []).1,
   (header_length_by_protocol.2 ⟨5000, 80, 8⟩ []).2.2.2 (by decide) (by decide),
   (header_length_by_protocol.1 ⟨5000, 80, 28⟩ []).1⟩

/-- Claim C3: `set_payload_length` on a TCP-tagged mutable view is a no-op leaving the whole
view — header bytes and backing Data — unchanged (and, being total, raises no error); on a
UDP-tagged view it delegates to the UDP codec, which stores n + 8 in the length field of the
backing Data and of the buffer (big-endian at byte offset 4). -/
theorem set_payload_length_tcp_noop_udp_patch :
    (∀ (h : TCPHeaderMut) (n : Nat),
      (TransportHeaderMut.TCP h).set_payload_length n = TransportHeaderMut.TCP h) ∧
    (∀ (h : UDPHeaderMut) (n : Nat), n + 8 < 65536 →
      ((TransportHeaderMut.UDP h).set_payload_length n).data_clone =
          TransportHeaderData.UDP ⟨h.data.sourcePort, h.data.destinationPort, n + 8⟩ ∧
        ((TransportHeaderMut.UDP h).set_payload_length n).raw = write16 h.raw 4 (n + 8)) := by
  constructor
  · intro h n
    rfl
  · intro h n hlt
    have hmod : (n + 8) % 65536 = n + 8 := Nat.mod_eq_of_lt hlt
    constructor
    · simp [TransportHeaderMut.set_payload_length, UDPHeaderMut.set_payload_length,
        TransportHeaderMut.data_clone, hmod]
    · simp [TransportHeaderMut.set_payload_length, UDPHeaderMut.set_payload_length,
        TransportHeaderMut.raw, hmod]

/-- Witness for C3: patching a payload length of 100 on a concrete UDP view stores 108. -/
theorem set_payload_length_witness :
    100 + 8 < 65536 ∧
    ((TransportHeaderMut.UDP ⟨List.replicate 8 0, ⟨5000, 80, 8⟩⟩).set_payload_length
        100).data_clone = TransportHeaderData.UDP ⟨5000, 80, 108⟩ :=
  ⟨by decide,
   (set_payload_length_tcp_noop_udp_patch.2 ⟨List.replicate 8 0, ⟨5000, 80, 8⟩⟩ 100
      (by decide)).1⟩

/-- Claim C4: the protocol tag is fixed at construction and preserved by every operation:
`bind` and `bind_mut` produce a view with the identical tag, `swap_source_and_destination`,
`set_payload_length` and `update_checksum` leave the tag of a mutable view unchanged, and
`data_clone` (on either view form) returns a Data with the same tag. -/
theorem protocol_tag_preserved :
    (∀ (d : TransportHeaderData) (raw : List Nat),
      (d.bind raw).tag = d.tag ∧ (d.bind_mut raw).tag = d.tag) ∧
    (∀ m : TransportHeaderMut, m.swap_source_and_destination.tag = m.tag) ∧
    (∀ (m : TransportHeaderMut) (n : Nat), (m.set_payload_length n).tag = m.tag) ∧
    (∀ (m : TransportHeaderMut) (ip : IPv4HeaderData) (payload : List Nat),
      (m.update_checksum ip payload).tag = m.tag) ∧
    (∀ v : TransportHeader, v.data_clone.tag = v.tag) ∧
    (∀ m : TransportHeaderMut, m.data_clone.tag = m.tag) := by
  refine ⟨fun d raw => ?_, fun m => ?_, fun m n => ?_, fun m ip payload => ?_,
    fun v => ?_, fun m => ?_⟩
  · cases d <;> exact ⟨rfl, rfl⟩
  · cases m <;> rfl
  · cases m <;> rfl
  · cases m <;> rfl
  · cases v <;> rfl
  · cases m <;> rfl

/-- Claim C5: round-trip — binding an owned snapshot to any buffer and calling `data_clone`
without performing any mutation yields a Data equal to the original snapshot. -/
theorem bind_data_clone_roundtrip (d : TransportHeaderData) (raw : List Nat) :
    (TransportHeader.new raw d).data_clone = d ∧ (d.bind raw).data_clone = d ∧
      (d.bind_mut raw).data_clone = d := by
  cases d <;> exact ⟨rfl, rfl, rfl⟩

/-- Claim C6: on a bound mutable view over a buffer holding at least the four port bytes
(TCP- or UDP-tagged), calling `swap_source_and_destination` twice in succession restores the
original state entirely — in particular the source and destination port values in both the
buffer and the backing Data. -/
theorem swap_twice_restores (d : TransportHeaderData) (b0 b1 b2 b3 : Nat) (rest : List Nat) :
    (TransportHeaderMut.new (b0 :: b1 :: b2 :: b3 :: rest)
        d).swap_source_and_destination.swap_source_and_destination =
      TransportHeaderMut.new (b0 :: b1 :: b2 :: b3 :: rest) d := by
  cases d <;>
    simp [TransportHeaderMut.new, TransportHeaderMut.swap_source_and_destination,
      TCPHeaderMut.swap_source_and_destination, UDPHeaderMut.swap_source_and_destination,
      TCPHeaderData.bind_mut, UDPHeaderData.bind_mut, swapPortBytes, List.set, List.getD]

/-- Claim C7: `swap_source_and_destination` exchanges the source and destination ports in
place, updating the buffer and the backing Data together: afterwards `source_port` returns the
prior destination port, `destination_port` the prior source port, `header_length` is unchanged
(still 8 for UDP), the buffer's four port bytes are exchanged pairwise, and a subsequent
`data_clone` sees the swapped state. -/
theorem swap_updates_buffer_and_data (d : TransportHeaderData) (b0 b1 b2 b3 : Nat)
    (rest : List Nat) :
    ((TransportHeaderMut.new (b0 :: b1 :: b2 :: b3 :: rest)
        d).swap_source_and_destination.source_port =
      (TransportHeaderMut.new (b0 :: b1 :: b2 :: b3 :: rest) d).destination_port) ∧
    ((TransportHeaderMut.new (b0 :: b1 :: b2 :: b3 :: rest)
        d).swap_source_and_destination.destination_port =
      (TransportHeaderMut.new (b0 :: b1 :: b2 :: b3 :: rest) d).source_port) ∧
    ((TransportHeaderMut.new (b0 :: b1 :: b2 :: b3 :: rest)
        d).swap_source_and_destination.header_length =
      (TransportHeaderMut.new (b0 :: b1 :: b2 :: b3 :: rest) d).header_length) ∧
    (d.tag = TransportTag.udp →
      (TransportHeaderMut.new (b0 :: b1 :: b2 :: b3 :: rest)
        d).swap_source_and_destination.header_length = 8) ∧
    ((TransportHeaderMut.new (b0 :: b1 :: b2 :: b3 :: rest)
        d).swap_source_and_destination.raw = b2 :: b3 :: b0 :: b1 :: rest) ∧
    ((TransportHeaderMut.new (b0 :: b1 :: b2 :: b3 :: rest)
        d).swap_source_and_destination.data_clone.source_port =
      (TransportHeaderMut.new (b0 :: b1 :: b2 :: b3 :: rest) d).destination_port) ∧
    ((TransportHeaderMut.new (b0 :: b1 :: b2 :: b3 :: rest)
        d).swap_source_and_destination.data_clone.destination_port =
      (TransportHeaderMut.new (b0 :: b1 :: b2 :: b3 :: rest) d).source_port) := by
  cases d with
  | TCP t =>
    refine ⟨rfl, rfl, rfl, fun h => ?_, ?_, rfl, rfl⟩
    · exact absurd h (by simp [TransportHeaderData.tag])
    · simp [TransportHeaderMut.new, TransportHeaderMut.swap_source_and_destination,
        TCPHeaderMut.swap_source_and_destination, TCPHeaderData.bind_mut,
        TransportHeaderMut.raw, swapPortBytes, List.set, List.getD]
  | UDP u =>
    refine ⟨rfl, rfl, rfl, fun _ => rfl, ?_, rfl, rfl⟩
    simp [TransportHeaderMut.new, TransportHeaderMut.swap_source_and_destination,
      UDPHeaderMut.swap_source_and_destination, UDPHeaderData.bind_mut,
      TransportHeaderMut.raw, swapPortBytes, List.set, List.getD]

/-- Witness for C7, the spec's scenario: a UDP header with source port 5000 and destination
port 80 (buffer bytes 19,136,0,80), parsed then swapped, yields source port 80, destination
port 5000, with header length still 8. -/
theorem swap_updates_buffer_and_data_witness :
    ((TransportHeaderMut.new [19, 136, 0, 80, 0, 16, 0, 0]
        (TransportHeaderData.UDP ⟨5000, 80, 16⟩)).swap_source_and_destination.source_port
      = 80) ∧
    ((TransportHeaderMut.new [19, 136, 0, 80, 0, 16, 0, 0]
        (TransportHeaderData.UDP ⟨5000, 80, 16⟩)).swap_source_and_destination.destination_port
      = 5000) ∧
    ((TransportHeaderMut.new [19, 136, 0, 80, 0, 16, 0, 0]
        (TransportHeaderData.UDP ⟨5000, 80, 16⟩)).swap_source_and_destination.header_length
      = 8) :=
  ⟨(swap_updates_buffer_and_data (TransportHeaderData.UDP ⟨5000, 80, 16⟩)
      19 136 0 80 [0, 16, 0, 0]).1,
   (swap_updates_buffer_and_data (TransportHeaderData.UDP ⟨5000, 80, 16⟩)
      19 136 0 80 [0, 16, 0, 0]).2.1,
   (swap_updates_buffer_and_data (TransportHeaderData.UDP ⟨5000, 80, 16⟩)
      19 136 0 80 [0, 16, 0, 0]).2.2.2.1 rfl⟩

/-- Claim C9: the view accessors read through the codec view's Data, not the raw buffer
bytes: on any bound view (read-only or mutable) over any buffer — even one disagreeing with
the Data — `source_port`, `destination_port` and `header_length` return exactly the backing
Data's values, `data_clone` returns exactly that Data, the results are independent of the
buffer, and on every mutable view (hence after any prior mutation) the accessors agree with
`data_clone`. -/
theorem accessors_read_through_data (d : TransportHeaderData) (raw1 raw2 : List Nat) :
    ((d.bind raw1).source_port = d.source_port ∧
      (d.bind raw1).destination_port = d.destination_port ∧
      (d.bind raw1).header_length = d.header_length ∧
      (d.bind raw1).data_clone = d) ∧
    ((d.bind_mut raw1).source_port = d.source_port ∧
      (d.bind_mut raw1).destination_port = d.destination_port ∧
      (d.bind_mut raw1).header_length = d.header_length ∧
      (d.bind_mut raw1).data_clone = d) ∧
    ((d.bind raw1).source_port = (d.bind raw2).source_port ∧
      (d.bind raw1).data_clone = (d.bind raw2).data_clone) ∧
    (∀ m : TransportHeaderMut,
      m.source_port = m.data_clone.source_port ∧
        m.destination_port = m.data_clone.destination_port ∧
        m.header_length = m.data_clone.header_length) := by
  refine ⟨?_, ?_, ?_, fun m => ?_⟩
  · cases d <;> exact ⟨rfl, rfl, rfl, rfl⟩
  · cases d <;> exact ⟨rfl, rfl, rfl, rfl⟩
  · cases d <;> exact ⟨rfl, rfl⟩
  · cases m <;> exact ⟨rfl, rfl, rfl⟩

end RustRelay
